import Mathlib

/-!
# Caliper: the `netout` service and the Python attribute binding

A shallow embedding of

* `src/services/netout/NetOut.cpp` (class `NetOutService`), and
* `src/bindings/python/instrumentation.cpp` (class `PythonAttribute`),

followed by theorems about the embedded functions.

Conventions of the embedding.

* `std::string` is `String`; `size()` and `length()` are `String.length`
  (one `Char` per C++ `char`).
* `size_t` is a natural number below `2 ^ 64`, `int` an integer in
  `[-2 ^ 31, 2 ^ 31)`; every conversion and every wrap-around is written out.
* Objects with state are threaded explicitly: the service is a record, the
  outside world (requests performed, text written to `stderr`, log lines) is a
  second record.
* Functions of Caliper or libcurl whose code is not part of the two files are
  parameters, gathered in the record `Collaborators`.
-/

namespace NetOut

/-! ## Machine integers -/

/-- Number of values of a `size_t` (LP64). -/
def SIZE_T_MOD : Nat := 2 ^ 64

/-- Number of values of an `int`. -/
def INT_MOD : Nat := 2 ^ 32

/-- Conversion of an integer value to `int`: reduction modulo `2 ^ 32` into
the two's complement range. -/
def to_int (i : Int) : Int :=
  let m := i % (INT_MOD : Int)
  if m < 2 ^ 31 then m else m - (INT_MOD : Int)

/-- Conversion of an integer value to `size_t`: reduction modulo `2 ^ 64`. -/
def to_size_t (i : Int) : Nat :=
  (i % (SIZE_T_MOD : Int)).toNat

/-! ## `create_default_formatstring` (NetOut.cpp, lines 82-102) -/

/-- The loop `for (s : attr_names) name_sizes += s.size();` on an `int`
accumulator: the sum is formed in `size_t` and converted back to `int`. -/
def sum_name_sizes (attr_names : List String) : Int :=
  attr_names.foldl
    (fun name_sizes s => to_int ((to_size_t name_sizes + s.length) % SIZE_T_MOD : Nat)) 0

/-- The expression `max<int>(0, (80-10-name_sizes-2*attr_names.size()) / attr_names.size())`.
`80-10-name_sizes` is an `int`; `2*attr_names.size()` is a `size_t`, so the
subtraction and the division are done in `size_t`, and the quotient is
converted to `int` for `max<int>`. -/
def column_width (name_sizes : Int) (size : Nat) : Int :=
  let lhs : Nat := to_size_t (to_int (80 - 10 - name_sizes))
  let rhs : Nat := (2 * size) % SIZE_T_MOD
  let diff : Nat := (lhs + SIZE_T_MOD - rhs) % SIZE_T_MOD
  max 0 (to_int ((diff / size : Nat) : Int))

/-- The method `NetOutService::create_default_formatstring`. -/
def create_default_formatstring (attr_names : List String) : String :=
  if attr_names.length < 1 then
    "%time.inclusive.duration%"
  else
    let name_sizes := sum_name_sizes attr_names
    let w := column_width name_sizes attr_names.length
    let os := attr_names.foldl
      (fun os s => os ++ s ++ "=%[" ++ toString w ++ "]" ++ s ++ "% ") ""
    os ++ "%[8r]time.inclusive.duration%"

/-- The default template as the specification words it (section 4.3): for `k`
names of total length `L` the width is `max(0, (80 - 10 - L - 2k) / k)` in
integer arithmetic, one column `name=%[w]name% ` per name, then the trailing
duration field; the bare duration field for no names. -/
def spec_default_formatstring (names : List String) : String :=
  match names with
  | [] => "%time.inclusive.duration%"
  | _ =>
    let k : Int := names.length
    let L : Int := (names.map String.length).sum
    let w : Int := max 0 ((80 - 10 - L - 2 * k) / k)
    String.join (names.map (fun n => n ++ "=%[" ++ toString w ++ "]" ++ n ++ "% "))
      ++ "%[8r]time.inclusive.duration%"

/-! ## Data model

The types below are declared in Caliper headers that are not part of the two
files; each is modelled with the members the two files use. -/

/-- Modelled from the spec: the numeric id of an attribute or node
(`cali_id_t`, section 3 "opaque numeric id"). -/
abbrev cali_id_t := Nat

/-- Modelled from the spec: the id that stands for "invalid" (section 6,
`findAttribute(name) -> id|invalid`); `CALI_INV_ID`, all 64 bits set. -/
def CALI_INV_ID : cali_id_t := 2 ^ 64 - 1

/-- Modelled from the spec: a value with its type tag (section 3, "a value type
tag (integer/double/string/etc.)"). -/
inductive Variant where
  | v_empty
  | v_int (i : Int)
  | v_uint (n : Nat)
  | v_string (s : String)
  deriving DecidableEq, Repr

/-- Modelled from the spec: an attribute (section 3): id, name and the
skip-events property, as read by `id()`, `name()` and `skip_events()`. -/
structure Attribute where
  id : cali_id_t
  name : String
  skip_events : Bool
  deriving DecidableEq, Repr

namespace Attribute

/-- Modelled from the spec: `Attribute::invalid`, the attribute with the
invalid id. -/
def invalid : Attribute := ⟨CALI_INV_ID, "", false⟩

/-- Modelled from the spec: `operator==` on attributes; the id is the identity
of an attribute (section 3). -/
def same (a b : Attribute) : Bool := a.id == b.id

end Attribute

/-- Modelled from the spec: a node of the context tree (section 3): one
attribute/value pair (`attr`, the id `Node::attribute()` returns, and `data`)
and a reference to the parent node. -/
structure Node where
  id : cali_id_t
  attr : cali_id_t
  data : Variant
  parent : Option cali_id_t
  deriving DecidableEq, Repr

/-- Modelled from the spec: an `Entry` (section 6, `Entry|empty`): empty, a
reference to a tree node, or an immediate attribute/value pair. -/
inductive Entry where
  | empty
  | node (n : Node)
  | immediate (attr : cali_id_t) (value : Variant)
  deriving DecidableEq, Repr

namespace Entry

/-- The test `Entry::is_empty()`. -/
def is_empty : Entry → Bool
  | empty => true
  | _ => false

/-- The accessor `Entry::value()`: the node's data or the immediate value. -/
def value : Entry → Variant
  | empty => Variant.v_empty
  | node n => n.data
  | immediate _ v => v

end Entry

/-- The counts `SnapshotRecord::Sizes`. -/
structure Sizes where
  n_nodes : Nat
  n_immediate : Nat

/-- The arrays `SnapshotRecord::Data`; an array is the function from index
to element. -/
structure Data where
  node_entries : Nat → Node
  immediate_attr : Nat → cali_id_t
  immediate_data : Nat → Variant

/-- Modelled from the spec: a snapshot record (section 6, snapshot accessor):
its size and its data. -/
structure SnapshotRecord where
  size : Sizes
  data : Data

/-- The options set on a libcurl easy handle by `curl_easy_setopt`. -/
structure CURL where
  url : String
  useragent : String
  postfields : String
  postfieldsize : Nat
  deriving DecidableEq, Repr

/-- The request body libcurl sends for a handle: the first `postfieldsize`
characters of `postfields`. -/
def CURL.body (h : CURL) : String := h.postfields.take h.postfieldsize

/-- The functions of Caliper, libcurl and the file system that the service
calls and whose code is outside the two files. -/
structure Collaborators where
  /-- `SnapshotRecord::get(const Attribute&)`. -/
  get : SnapshotRecord → Attribute → Entry
  /-- `Variant::to_id()`. -/
  to_id : Variant → cali_id_t
  /-- `SnapshotTextFormatter::print` of a formatter reset to the given format
  string: the text written for an entry list. -/
  print : String → List Entry → String
  /-- `Caliper::get_attribute(name)`. -/
  get_attribute : String → Attribute
  /-- `util::split(str, sep, out)`. -/
  split : String → Char → List String
  /-- Whether `ofstream::open(filename)` leaves the stream good. -/
  ofstream_open : String → Bool
  /-- `curl_easy_init()`. -/
  curl_easy_init : CURL
  /-- `curl_easy_perform`: the result code for a request, `0` being `CURLE_OK`. -/
  curl_easy_perform : CURL → Nat
  /-- `curl_easy_strerror`. -/
  curl_easy_strerror : Nat → String

/-- What the service does to the outside: the requests performed (the handle's
options at the time of `curl_easy_perform`, oldest first), the text written to
`stderr`, the lines written to Caliper's log, and the text written to the
stream `get_stream()` selects (no method of the service calls `get_stream()`,
so none writes there). -/
structure World where
  requests : List CURL
  stderr : String
  log : List String
  stream_out : String
  deriving DecidableEq, Repr

/-- The empty world. -/
def World.init : World := ⟨[], "", [], ""⟩

/-! ## `NetOutService` -/

/-- The runtime configuration of the service, one field per entry of
`configdata` (lines 34-55). -/
structure ConfigSet where
  trigger : String
  formatstring : String
  filename : String
  posturl : String
  deriving DecidableEq, Repr

/-- The default values of `configdata`. -/
def configdata : ConfigSet :=
  ⟨"", "", "stdout", "https://lc.llnl.gov"⟩

/-- The enumeration `NetOutService::Stream`. -/
inductive Stream where
  | None | File | StdErr | StdOut
  deriving DecidableEq, Repr

/-- The type `TriggerAttributeMap`, a `std::map<cali_id_t, Attribute>`: the list of
its key/value pairs. -/
abbrev TriggerAttributeMap := List (cali_id_t × Attribute)

namespace TriggerAttributeMap

/-- The lookup `std::map::find`: the value stored under `k`, if any. -/
def find : TriggerAttributeMap → cali_id_t → Option Attribute
  | [], _ => none
  | (k', v) :: rest, k => if k' = k then some v else find rest k

/-- The insertion `std::map::insert`: adds the pair unless the key is present.
The service only looks keys up and never iterates, so the position of a new
pair in the list stands for nothing. -/
def insert : TriggerAttributeMap → cali_id_t → Attribute → TriggerAttributeMap
  | [], k, v => [(k, v)]
  | (k', v') :: rest, k, v =>
    if k' = k then (k', v') :: rest else (k', v') :: insert rest k v

end TriggerAttributeMap

/-- The data members of `NetOutService` (lines 59-77). `formatter` holds the
format string the formatter was last reset to; `m_ofstream` holds whether the
file stream is open and good. -/
structure NetOutService where
  config : ConfigSet
  trigger_attr_map : TriggerAttributeMap
  m_curl : CURL
  trigger_attr_names : List String
  formatter : String
  string_output : String
  m_stream : Stream
  m_ofstream : Bool
  m_output_url : String
  set_event_attr : Attribute
  end_event_attr : Attribute
  deriving DecidableEq, Repr

/-- The table `strmap` of `init_stream` (lines 107-110). -/
def strmap : List (String × Stream) :=
  [("none", Stream.None), ("stdout", Stream.StdOut), ("stderr", Stream.StdErr)]

/-- The method `init_stream` (lines 104-123). -/
def init_stream (c : Collaborators) (self : NetOutService) (w : World) :
    NetOutService × World :=
  let filename := self.config.filename
  match strmap.lookup filename with
  | none =>
    let self := { self with m_ofstream := c.ofstream_open filename }
    if !self.m_ofstream then
      (self, { w with log := w.log ++ ["Could not open text log file " ++ filename] })
    else
      ({ self with m_stream := Stream.File }, w)
  | some second => ({ self with m_stream := second }, w)

/-- The stream `get_stream()` returns (lines 125-134). -/
inductive OStream where
  | cout | cerr | m_ofstream
  deriving DecidableEq, Repr

/-- The method `get_stream` (lines 125-134). -/
def get_stream (self : NetOutService) : OStream :=
  match self.m_stream with
  | Stream.StdOut => OStream.cout
  | Stream.StdErr => OStream.cerr
  | _ => OStream.m_ofstream

/-- The method `create_attribute_cb` (lines 136-147). -/
def create_attribute_cb (self : NetOutService) (attr : Attribute) : NetOutService :=
  if attr.skip_events then
    self
  else if attr.name ∈ self.trigger_attr_names then
    { self with
      trigger_attr_map := TriggerAttributeMap.insert self.trigger_attr_map attr.id attr }
  else
    self

/-- Lines 154-157 of `process_snapshot_cb`: the end event entry, or the set
event entry when the end event entry is empty. -/
def select_event (c : Collaborators) (self : NetOutService)
    (trigger_info : SnapshotRecord) : Entry :=
  let event := c.get trigger_info self.end_event_attr
  if event.is_empty then c.get trigger_info self.set_event_attr else event

/-- Lines 161-171 of `process_snapshot_cb`: the attribute stored under the id
of the event, `Attribute::invalid` when there is none. -/
def lookup_trigger_attr (c : Collaborators) (self : NetOutService) (event : Entry) :
    Attribute :=
  match TriggerAttributeMap.find self.trigger_attr_map (c.to_id event.value) with
  | some second => second
  | none => Attribute.invalid

/-- Lines 176-184 of `process_snapshot_cb`: the two `push_back` loops. -/
def build_entrylist (snapshot : SnapshotRecord) : List Entry :=
  let size := snapshot.size
  let data := snapshot.data
  let entrylist : List Entry := []
  let entrylist := (List.range size.n_nodes).foldl
    (fun l n => l ++ [Entry.node (data.node_entries n)]) entrylist
  let entrylist := (List.range size.n_immediate).foldl
    (fun l n => l ++ [Entry.immediate (data.immediate_attr n) (data.immediate_data n)])
    entrylist
  entrylist

/-- Lines 186-200 of `process_snapshot_cb`: print the entry list to
`string_output`, set the options of the handle and perform the request. -/
def render_and_post (c : Collaborators) (self : NetOutService) (w : World)
    (entrylist : List Entry) : NetOutService × World :=
  let string_output := self.string_output ++ c.print self.formatter entrylist ++ "\n"
  let outThis := string_output
  let m_curl := { self.m_curl with url := self.m_output_url }
  let m_curl := { m_curl with useragent := "libcurl-agent/1.0" }
  let m_curl := { m_curl with postfields := outThis }
  let m_curl := { m_curl with postfieldsize := outThis.length }
  let result := c.curl_easy_perform m_curl
  let w := { w with requests := w.requests ++ [m_curl] }
  let w :=
    if result != 0 then
      { w with stderr := w.stderr ++ "curl_easy_perform() failed: "
          ++ c.curl_easy_strerror result ++ "\n" }
    else
      { w with stderr := w.stderr ++ "curl_easy_perform() success\n" }
  ({ self with string_output := string_output, m_curl := m_curl }, w)

/-- The method `process_snapshot_cb` (lines 149-202); a null `trigger_info`
is `none`. -/
def process_snapshot_cb (c : Collaborators) (self : NetOutService) (w : World)
    (trigger_info : Option SnapshotRecord) (snapshot : SnapshotRecord) :
    NetOutService × World :=
  match trigger_info with
  | none => (self, w)
  | some trigger_info =>
    let event := select_event c self trigger_info
    if event.is_empty then
      (self, w)
    else
      let trigger_attr := lookup_trigger_attr c self event
      if trigger_attr.same Attribute.invalid || (c.get snapshot trigger_attr).is_empty then
        (self, w)
      else
        render_and_post c self w (build_entrylist snapshot)

/-- The method `post_init_cb` (lines 204-222). -/
def post_init_cb (c : Collaborators) (self : NetOutService) (w : World) :
    NetOutService × World :=
  let formatstr := self.config.formatstring
  let self := { self with m_output_url := self.config.posturl }
  let self := { self with m_curl := c.curl_easy_init }
  let formatstr :=
    if formatstr.length = 0 then create_default_formatstring self.trigger_attr_names
    else formatstr
  let self := { self with formatter := formatstr }
  let self := { self with set_event_attr := c.get_attribute "cali.snapshot.event.set" }
  let self := { self with end_event_attr := c.get_attribute "cali.snapshot.event.end" }
  if self.end_event_attr.same Attribute.invalid || self.set_event_attr.same Attribute.invalid then
    (self, { w with log := w.log ++
      ["NetOut: Note: \"event\" trigger attributes not registered\n    disabling text log.\n"] })
  else
    (self, w)

/-- The constructor `NetOutService(Caliper*)` (lines 240-255). It initialises
`config`, `set_event_attr` and `end_event_attr`; the containers and strings
start empty; `m_stream` and `m_curl` have no initialiser, so their values
before `init_stream` are whatever the storage held, here `m_stream0` and
`m_curl0`. -/
def NetOutService.construct (c : Collaborators) (config : ConfigSet)
    (m_stream0 : Stream) (m_curl0 : CURL) (w : World) : NetOutService × World :=
  let self : NetOutService :=
    { config := config
      trigger_attr_map := []
      m_curl := m_curl0
      trigger_attr_names := []
      formatter := ""
      string_output := ""
      m_stream := m_stream0
      m_ofstream := false
      m_output_url := ""
      set_event_attr := Attribute.invalid
      end_event_attr := Attribute.invalid }
  let (self, w) := init_stream c self w
  let self := { self with
    trigger_attr_names := self.trigger_attr_names ++ c.split config.trigger ':' }
  (self, { w with log := w.log ++ ["Registered text log service"] })

/-- A call the host makes on the registered service. -/
inductive Call where
  | create_attribute (attr : Attribute)
  | process_snapshot (trigger_info : Option SnapshotRecord) (snapshot : SnapshotRecord)

/-- One call: the static callbacks forward to the methods (lines 226-232). -/
def step (c : Collaborators) (st : NetOutService × World) : Call → NetOutService × World
  | Call.create_attribute attr => (create_attribute_cb st.1 attr, st.2)
  | Call.process_snapshot trigger_info snapshot =>
    process_snapshot_cb c st.1 st.2 trigger_info snapshot

/-- A sequence of calls, in order. -/
def run (c : Collaborators) (st : NetOutService × World) (calls : List Call) :
    NetOutService × World :=
  calls.foldl (step c) st

end NetOut

namespace PyBinding

open NetOut

/-! ## `PythonAttribute` (instrumentation.cpp, lines 10-49) -/

/-- The enumeration `cali_attr_type`, by its numeric value. -/
abbrev cali_attr_type := Nat

/-- The C value type `cali_variant_t`. -/
abbrev cali_variant_t := Variant

/-- The class `PythonVariant`, with the value `c_variant()` returns. -/
structure PythonVariant where
  c_variant : cali_variant_t
  deriving DecidableEq, Repr

/-- The functions of Caliper's C interface that the constructors call. Each may
change the state `σ` of the Caliper runtime (creating an attribute does), so
each takes the state and returns the new one with its result. -/
structure CInterface (σ : Type) where
  /-- `cali_create_attribute(name, type, properties)`. -/
  cali_create_attribute : String → cali_attr_type → Int → σ → cali_id_t × σ
  /-- `cali_create_attribute_with_metadata(name, type, properties, n,
  meta_attr_list, meta_val_list)`. -/
  cali_create_attribute_with_metadata :
    String → cali_attr_type → Int → Nat → List cali_id_t → List cali_variant_t → σ →
      cali_id_t × σ
  /-- `cali_find_attribute(name)`. -/
  cali_find_attribute : String → σ → cali_id_t × σ

/-- The class `PythonAttribute`: its one data member. -/
structure PythonAttribute where
  m_attr_id : cali_id_t
  deriving DecidableEq, Repr

namespace PythonAttribute

variable {σ : Type}

/-- The constructor `PythonAttribute(name, type, properties)` (lines 10-16).
A thrown `std::runtime_error` is `Except.error` with its message. -/
def ctor (api : CInterface σ) (name : String) (type : cali_attr_type) (properties : Int)
    (st : σ) : Except String PythonAttribute × σ :=
  let (m_attr_id, st) := api.cali_create_attribute name type properties st
  if m_attr_id = CALI_INV_ID then
    (Except.error "Failed to create attribute", st)
  else
    (Except.ok ⟨m_attr_id⟩, st)

/-- The constructor `PythonAttribute(name, type, properties, meta_attrs,
meta_vals)` (lines 18-37). -/
def ctor_with_metadata (api : CInterface σ) (name : String) (type : cali_attr_type)
    (properties : Int) (meta_attrs : List PythonAttribute) (meta_vals : List PythonVariant)
    (st : σ) : Except String PythonAttribute × σ :=
  if meta_attrs.length ≠ meta_vals.length then
    (Except.error "'meta_attrs' and 'meta_vals' must be same length", st)
  else
    let meta_attr_vec : List cali_id_t := meta_attrs.map (fun a => a.m_attr_id)
    let meta_vals_vec : List cali_variant_t := meta_vals.map (fun v => v.c_variant)
    let (m_attr_id, st) := api.cali_create_attribute_with_metadata
      name type properties meta_attr_vec.length meta_attr_vec meta_vals_vec st
    if m_attr_id = CALI_INV_ID then
      (Except.error "Could not create attribute with metadata", st)
    else
      (Except.ok ⟨m_attr_id⟩, st)

/-- The constructor `PythonAttribute(cali_id_t id)` (lines 39-44). -/
def ctor_from_id (id : cali_id_t) : Except String PythonAttribute :=
  if id = CALI_INV_ID then
    Except.error "Invalid attribute"
  else
    Except.ok ⟨id⟩

/-- The static method `find_attribute` (lines 46-49). -/
def find_attribute (api : CInterface σ) (name : String) (st : σ) :
    Except String PythonAttribute × σ :=
  let (id, st) := api.cali_find_attribute name st
  match ctor_from_id id with
  | Except.error e => (Except.error e, st)
  | Except.ok found_attr => (Except.ok found_attr, st)

end PythonAttribute

end PyBinding

namespace Sample

open NetOut

/-! ## Concrete collaborators

A small, executable stand-in for the functions of `Collaborators`, used to
evaluate the service on concrete inputs. -/

/-- Lookup in a record: nothing for the invalid attribute, else the first
immediate entry of that attribute, else the first node of that attribute. -/
def get (r : SnapshotRecord) (a : Attribute) : Entry :=
  if a.id = CALI_INV_ID then Entry.empty
  else
    match (List.range r.size.n_immediate).find? (fun i => r.data.immediate_attr i = a.id) with
    | some i => Entry.immediate a.id (r.data.immediate_data i)
    | none =>
      match (List.range r.size.n_nodes).find? (fun i => (r.data.node_entries i).attr = a.id) with
      | some i => Entry.node (r.data.node_entries i)
      | none => Entry.empty

/-- The id an unsigned value holds; the invalid id for any other value. -/
def to_id : Variant → cali_id_t
  | Variant.v_uint n => n
  | _ => CALI_INV_ID

/-- Text of a value. -/
def variant_text : Variant → String
  | Variant.v_empty => ""
  | Variant.v_int i => toString i
  | Variant.v_uint n => toString n
  | Variant.v_string s => s

/-- Text of an entry: attribute id, `=`, value. -/
def entry_text : Entry → String
  | Entry.empty => ""
  | Entry.node n => toString n.attr ++ "=" ++ variant_text n.data
  | Entry.immediate a v => toString a ++ "=" ++ variant_text v

/-- A formatter that writes the entries in order, separated by blanks. -/
def print (_formatstr : String) (entrylist : List Entry) : String :=
  " ".intercalate (entrylist.map entry_text)

/-- The event attributes and one trigger attribute, by name. -/
def get_attribute (name : String) : Attribute :=
  if name = "cali.snapshot.event.set" then ⟨1, name, true⟩
  else if name = "cali.snapshot.event.end" then ⟨2, name, true⟩
  else Attribute.invalid

/-- The pieces of `chars` between separators, `cur` being the piece read so
far; empty pieces are left out. -/
def split_chars (sep : Char) : List Char → List Char → List String
  | [], cur => if cur = [] then [] else [String.mk cur]
  | ch :: rest, cur =>
    if ch = sep then
      (if cur = [] then [] else [String.mk cur]) ++ split_chars sep rest []
    else
      split_chars sep rest (cur ++ [ch])

/-- Splitting of a string at a separator. -/
def split (s : String) (sep : Char) : List String :=
  split_chars sep s.data []

/-- The collaborators: no file can be opened, every request succeeds. -/
def collaborators : Collaborators where
  get := get
  to_id := to_id
  print := print
  get_attribute := get_attribute
  split := split
  ofstream_open := fun _ => false
  curl_easy_init := ⟨"", "", "", 0⟩
  curl_easy_perform := fun _ => 0
  curl_easy_strerror := fun _ => "error"

/-- A record of immediate entries only, from a list of attribute/value pairs. -/
def record (entries : List (cali_id_t × Variant)) : SnapshotRecord where
  size := ⟨0, entries.length⟩
  data :=
    ⟨fun _ => ⟨0, 0, Variant.v_empty, none⟩,
     fun i => (entries.getD i (CALI_INV_ID, Variant.v_empty)).1,
     fun i => (entries.getD i (CALI_INV_ID, Variant.v_empty)).2⟩

/-- The attribute `region` (id 10, no skip-events) and the attribute `phase`
(id 11, no skip-events). -/
def region : Attribute := ⟨10, "region", false⟩

/-- See `region`. -/
def phase : Attribute := ⟨11, "phase", false⟩

/-- A service after `post_init_cb` with the given configuration, `m_stream`
starting as `m_stream0`. -/
def service (config : ConfigSet) (m_stream0 : Stream) : NetOutService × World :=
  let (self, w) := NetOutService.construct collaborators config m_stream0 ⟨"", "", "", 0⟩ World.init
  post_init_cb collaborators self w

/-- The configuration of the examples: triggers `region` and `phase`, default
format, output to `stdout`. -/
def config : ConfigSet := ⟨"region:phase", "", "stdout", "http://collector"⟩

/-- The service of the examples after the attributes `region` and `phase` were
created. -/
def registered : NetOutService × World :=
  run collaborators (service config Stream.None)
    [Call.create_attribute region, Call.create_attribute phase]

/-- Trigger info: the end event of `region`. -/
def end_region : SnapshotRecord := record [(2, Variant.v_uint 10)]

/-- Trigger info: the end event of an attribute that is not registered (id 99)
and the set event of `region`. -/
def end_unknown_set_region : SnapshotRecord :=
  record [(2, Variant.v_uint 99), (1, Variant.v_uint 10)]

/-- Trigger info: the end event of an attribute that is not registered (id 77)
and the set event of `phase`. -/
def end_unknown_set_phase : SnapshotRecord :=
  record [(2, Variant.v_uint 77), (1, Variant.v_uint 11)]

/-- A snapshot with `region = init` and a duration (attribute 20) of 120. -/
def snapshot_init : SnapshotRecord :=
  record [(10, Variant.v_string "init"), (20, Variant.v_uint 120)]

/-- A snapshot with `region = loop` and a duration of 7. -/
def snapshot_loop : SnapshotRecord :=
  record [(10, Variant.v_string "loop"), (20, Variant.v_uint 7)]

/-- A snapshot with `phase = solve` and one tree node of attribute 30. -/
def snapshot_phase : SnapshotRecord where
  size := ⟨1, 1⟩
  data :=
    ⟨fun _ => ⟨5, 30, Variant.v_string "main", none⟩,
     fun _ => 11,
     fun _ => Variant.v_string "solve"⟩

/-- The service of the examples after the snapshot `snapshot_init` was
processed on the end event of `region`. -/
def after_init : NetOutService × World :=
  process_snapshot_cb collaborators registered.1 registered.2 (some end_region) snapshot_init

/-- The service of the examples after `snapshot_init` and then `snapshot_loop`
were processed, each on the end event of `region`. -/
def after_loop : NetOutService × World :=
  process_snapshot_cb collaborators after_init.1 after_init.2 (some end_region) snapshot_loop

/-- A service configured with `filename = none`, after `post_init_cb` and the
creation of `region`. -/
def registered_none : NetOutService × World :=
  run collaborators (service ⟨"region", "", "none", "http://collector"⟩ Stream.StdOut)
    [Call.create_attribute region]

/-- The example service with a file name that is not in `strmap`, before
`init_stream` runs on it; its `m_stream` holds `StdOut`. -/
def unopened : NetOutService :=
  { registered.1 with config := ⟨"region:phase", "", "trace.log", "http://collector"⟩ }

/-- Three trigger attribute names of total length 69. -/
def long_names : List String :=
  ["mpi.function.collective", "loop.iteration.outermost", "annotation.region.name"]

/-- A Caliper runtime for the binding: the state counts the attributes
created; creation fails for the empty name; `find` knows the name `region`. -/
def c_interface : PyBinding.CInterface Nat where
  cali_create_attribute := fun name _ _ st =>
    if name = "" then (CALI_INV_ID, st) else (100 + st, st + 1)
  cali_create_attribute_with_metadata := fun name _ _ _ _ _ st =>
    if name = "" then (CALI_INV_ID, st) else (100 + st, st + 1)
  cali_find_attribute := fun name st =>
    if name = "region" then (10, st) else (CALI_INV_ID, st)

end Sample


/-! # Theorems -/

namespace NetOut

/-! ## The registry -/

/-- Inserting under a key that is present changes nothing. -/
theorem TriggerAttributeMap.insert_of_mem_keys (m : TriggerAttributeMap) (k : cali_id_t)
    (v : Attribute) (h : k ∈ m.map Prod.fst) : TriggerAttributeMap.insert m k v = m := by
  induction m with
  | nil => simp at h
  | cons p rest ih =>
    obtain ⟨k', v'⟩ := p
    by_cases hk : k' = k
    · simp [TriggerAttributeMap.insert, hk]
    · have hrest : k ∈ rest.map Prod.fst := by
        simp only [List.map_cons, List.mem_cons] at h
        rcases h with h | h
        · exact absurd h.symm hk
        · exact h
      simp [TriggerAttributeMap.insert, hk, ih hrest]

/-- After an insertion the key is present. -/
theorem TriggerAttributeMap.mem_keys_insert (m : TriggerAttributeMap) (k : cali_id_t)
    (v : Attribute) : k ∈ (TriggerAttributeMap.insert m k v).map Prod.fst := by
  induction m with
  | nil => simp [TriggerAttributeMap.insert]
  | cons p rest ih =>
    obtain ⟨k', v'⟩ := p
    by_cases hk : k' = k
    · simp [TriggerAttributeMap.insert, hk]
    · simp only [TriggerAttributeMap.insert, hk, if_false, List.map_cons, List.mem_cons]
      exact Or.inr ih

/-- A pair of the map after an insertion was there before or is the new pair. -/
theorem TriggerAttributeMap.mem_insert (m : TriggerAttributeMap) (k : cali_id_t)
    (v : Attribute) (p : cali_id_t × Attribute)
    (h : p ∈ TriggerAttributeMap.insert m k v) : p ∈ m ∨ p = (k, v) := by
  induction m with
  | nil => simpa [TriggerAttributeMap.insert] using h
  | cons q rest ih =>
    obtain ⟨k', v'⟩ := q
    by_cases hk : k' = k
    · simp only [TriggerAttributeMap.insert, hk, if_true] at h
      exact Or.inl (by simpa [hk] using h)
    · simp only [TriggerAttributeMap.insert, hk, if_false, List.mem_cons] at h
      rcases h with h | h
      · exact Or.inl (by simp [h])
      · rcases ih h with h1 | h1
        · exact Or.inl (List.mem_cons_of_mem _ h1)
        · exact Or.inr h1

/-- The lookup finds a value exactly for the keys of the map. -/
theorem TriggerAttributeMap.find_eq_none_iff (m : TriggerAttributeMap) (k : cali_id_t) :
    TriggerAttributeMap.find m k = none ↔ k ∉ m.map Prod.fst := by
  induction m with
  | nil => simp [TriggerAttributeMap.find]
  | cons p rest ih =>
    obtain ⟨k', v'⟩ := p
    by_cases hk : k' = k
    · simp [TriggerAttributeMap.find, hk]
    · have hk2 : ¬ k = k' := fun h => hk h.symm
      simp [TriggerAttributeMap.find, hk, hk2, ih]

/-- The value the lookup finds is stored in the map under that key. -/
theorem TriggerAttributeMap.mem_of_find (m : TriggerAttributeMap) (k : cali_id_t)
    (v : Attribute) (h : TriggerAttributeMap.find m k = some v) : (k, v) ∈ m := by
  induction m with
  | nil => simp [TriggerAttributeMap.find] at h
  | cons p rest ih =>
    obtain ⟨k', v'⟩ := p
    by_cases hk : k' = k
    · simp only [TriggerAttributeMap.find, hk, if_true, Option.some.injEq] at h
      simp [hk, h]
    · simp only [TriggerAttributeMap.find, hk, if_false] at h
      exact List.mem_cons_of_mem _ (ih h)

/-- C9. `create_attribute_cb` is idempotent per id: when `attr.id()` is already a
key of `trigger_attr_map` the call leaves the service, and so the map and the
stored entry, unchanged; and calling it twice with the same attribute gives the
same service as calling it once. -/
theorem create_attribute_cb_idempotent (self : NetOutService) (attr : Attribute) :
    (attr.id ∈ self.trigger_attr_map.map Prod.fst → create_attribute_cb self attr = self) ∧
    create_attribute_cb (create_attribute_cb self attr) attr = create_attribute_cb self attr := by
  constructor
  · intro h
    unfold create_attribute_cb
    split
    · rfl
    · split
      · rw [TriggerAttributeMap.insert_of_mem_keys _ _ _ h]
      · rfl
  · by_cases hs : attr.skip_events = true
    · simp [create_attribute_cb, hs]
    · by_cases hn : attr.name ∈ self.trigger_attr_names
      · have h1 : create_attribute_cb self attr =
            { self with trigger_attr_map :=
                TriggerAttributeMap.insert self.trigger_attr_map attr.id attr } := by
          simp [create_attribute_cb, hs, hn]
        rw [h1]
        simp [create_attribute_cb, hs, hn, TriggerAttributeMap.insert_of_mem_keys _ _ _
          (TriggerAttributeMap.mem_keys_insert self.trigger_attr_map attr.id attr)]
      · simp [create_attribute_cb, hs, hn]

/-- The method `render_and_post` changes neither the map nor the names. -/
theorem render_and_post_registry (c : Collaborators) (self : NetOutService) (w : World)
    (entrylist : List Entry) :
    (render_and_post c self w entrylist).1.trigger_attr_map = self.trigger_attr_map ∧
    (render_and_post c self w entrylist).1.trigger_attr_names = self.trigger_attr_names := by
  simp [render_and_post]

/-- The method `process_snapshot_cb` changes neither the map nor the names. -/
theorem process_snapshot_cb_registry (c : Collaborators) (self : NetOutService) (w : World)
    (trigger_info : Option SnapshotRecord) (snapshot : SnapshotRecord) :
    (process_snapshot_cb c self w trigger_info snapshot).1.trigger_attr_map
        = self.trigger_attr_map ∧
    (process_snapshot_cb c self w trigger_info snapshot).1.trigger_attr_names
        = self.trigger_attr_names := by
  unfold process_snapshot_cb
  cases trigger_info with
  | none => exact ⟨rfl, rfl⟩
  | some ti =>
    dsimp only
    split
    · exact ⟨rfl, rfl⟩
    · split
      · exact ⟨rfl, rfl⟩
      · exact render_and_post_registry c self w _

/-- The method `create_attribute_cb` keeps the names, and a pair of the map
after the call was there before or is `(attr.id, attr)` for an `attr` that has
its name among the names and the skip-events property unset. -/
theorem create_attribute_cb_registry (self : NetOutService) (attr : Attribute) :
    (create_attribute_cb self attr).trigger_attr_names = self.trigger_attr_names ∧
    ∀ p, p ∈ (create_attribute_cb self attr).trigger_attr_map →
      p ∈ self.trigger_attr_map ∨
        (p = (attr.id, attr) ∧ attr.name ∈ self.trigger_attr_names ∧
          attr.skip_events = false) := by
  by_cases hs : attr.skip_events = true
  · simp [create_attribute_cb, hs]
  · by_cases hn : attr.name ∈ self.trigger_attr_names
    · have h1 : create_attribute_cb self attr =
          { self with trigger_attr_map :=
              TriggerAttributeMap.insert self.trigger_attr_map attr.id attr } := by
        simp [create_attribute_cb, hs, hn]
      rw [h1]
      refine ⟨rfl, fun p hp => ?_⟩
      rcases TriggerAttributeMap.mem_insert _ _ _ _ hp with h | h
      · exact Or.inl h
      · exact Or.inr ⟨h, hn, by simpa using hs⟩
    · simp [create_attribute_cb, hs, hn]

/-- The invariant of the registry is kept by every sequence of calls. -/
theorem run_keeps_registry (c : Collaborators) (calls : List Call) :
    ∀ st : NetOutService × World,
      (∀ p, p ∈ st.1.trigger_attr_map →
        p.2.name ∈ st.1.trigger_attr_names ∧ p.2.skip_events = false ∧ p.1 = p.2.id) →
      (run c st calls).1.trigger_attr_names = st.1.trigger_attr_names ∧
      ∀ p, p ∈ (run c st calls).1.trigger_attr_map →
        p.2.name ∈ st.1.trigger_attr_names ∧ p.2.skip_events = false ∧ p.1 = p.2.id := by
  induction calls with
  | nil => intro st h; exact ⟨rfl, h⟩
  | cons call rest ih =>
    intro st h
    have hstep : (step c st call).1.trigger_attr_names = st.1.trigger_attr_names ∧
        ∀ p, p ∈ (step c st call).1.trigger_attr_map →
          p.2.name ∈ st.1.trigger_attr_names ∧ p.2.skip_events = false ∧ p.1 = p.2.id := by
      cases call with
      | create_attribute attr =>
        obtain ⟨hn, hm⟩ := create_attribute_cb_registry st.1 attr
        refine ⟨hn, fun p hp => ?_⟩
        rcases hm p hp with h1 | ⟨h1, h2, h3⟩
        · exact h p h1
        · subst h1
          exact ⟨h2, h3, rfl⟩
      | process_snapshot trigger_info snapshot =>
        obtain ⟨hm, hn⟩ := process_snapshot_cb_registry c st.1 st.2 trigger_info snapshot
        refine ⟨hn, fun p hp => ?_⟩
        simp only [step] at hp
        rw [hm] at hp
        exact h p hp
    have hrun : run c st (call :: rest) = run c (step c st call) rest := by
      simp [run]
    rw [hrun]
    obtain ⟨hn, hm⟩ := ih (step c st call) (by
      intro p hp
      rw [hstep.1]
      exact hstep.2 p hp)
    rw [hstep.1] at hn hm
    exact ⟨hn, hm⟩

/-- C2. Registry invariant: starting from a service with an empty
`trigger_attr_map`, after any sequence of `create_attribute_cb` and
`process_snapshot_cb` calls every entry `(id, attr)` of `trigger_attr_map` has
`attr.name()` among `trigger_attr_names`, has `attr.skip_events()` false, and is
stored under the key `attr.id()`. -/
theorem registry_invariant (c : Collaborators) (self : NetOutService) (w : World)
    (calls : List Call) (hempty : self.trigger_attr_map = []) :
    ∀ id attr, (id, attr) ∈ (run c (self, w) calls).1.trigger_attr_map →
      attr.name ∈ (run c (self, w) calls).1.trigger_attr_names ∧
      attr.skip_events = false ∧ id = attr.id := by
  intro id attr hmem
  obtain ⟨hn, hm⟩ := run_keeps_registry c calls (self, w) (by
    intro p hp
    simp [hempty] at hp)
  rw [hn]
  exact hm (id, attr) hmem

/-! ## The entry list -/

/-- A `push_back` loop over the indices `xs` appends the image of `xs`. -/
theorem foldl_push_back {α : Type} (f : Nat → α) (xs : List Nat) :
    ∀ init : List α, xs.foldl (fun l n => l ++ [f n]) init = init ++ xs.map f := by
  induction xs with
  | nil => intro init; simp
  | cons x rest ih => intro init; simp [ih]

/-- The entry list is the node entries followed by the immediate entries. -/
theorem build_entrylist_eq (snapshot : SnapshotRecord) :
    build_entrylist snapshot =
      (List.range snapshot.size.n_nodes).map (fun n => Entry.node (snapshot.data.node_entries n))
      ++ (List.range snapshot.size.n_immediate).map (fun n =>
          Entry.immediate (snapshot.data.immediate_attr n) (snapshot.data.immediate_data n)) := by
  simp [build_entrylist, foldl_push_back]

/-- C4. For a snapshot record with `n_nodes` node entries and `n_immediate`
immediate pairs the entry list built in `process_snapshot_cb` has length
`n_nodes + n_immediate`; its `i`-th element, `i < n_nodes`, is the `i`-th node
entry; its `(n_nodes + j)`-th element, `j < n_immediate`, is the entry of the
`j`-th immediate attribute and value; an empty record gives the empty list. -/
theorem build_entrylist_spec (snapshot : SnapshotRecord) :
    (build_entrylist snapshot).length = snapshot.size.n_nodes + snapshot.size.n_immediate ∧
    (∀ i, i < snapshot.size.n_nodes →
      (build_entrylist snapshot)[i]? = some (Entry.node (snapshot.data.node_entries i))) ∧
    (∀ j, j < snapshot.size.n_immediate →
      (build_entrylist snapshot)[snapshot.size.n_nodes + j]? =
        some (Entry.immediate (snapshot.data.immediate_attr j)
          (snapshot.data.immediate_data j))) ∧
    (snapshot.size.n_nodes = 0 → snapshot.size.n_immediate = 0 →
      build_entrylist snapshot = []) := by
  rw [build_entrylist_eq]
  refine ⟨by simp, ?_, ?_, ?_⟩
  · intro i hi
    rw [List.getElem?_append_left (by simpa using hi)]
    simp [hi]
  · intro j hj
    rw [List.getElem?_append_right (by simp)]
    simp [hj]
  · intro h1 h2
    simp [h1, h2]

/-! ## Acceptance of a snapshot by `process_snapshot_cb` -/

/-- The method `render_and_post` appends the rendered line and a line
terminator to `string_output` and performs one request whose fields are the
whole of `string_output`. -/
theorem render_and_post_effect (c : Collaborators) (self : NetOutService) (w : World)
    (entrylist : List Entry) :
    (render_and_post c self w entrylist).1.string_output
      = self.string_output ++ c.print self.formatter entrylist ++ "\n" ∧
    (render_and_post c self w entrylist).2.requests
      = w.requests ++ [(render_and_post c self w entrylist).1.m_curl] ∧
    (render_and_post c self w entrylist).1.m_curl.postfields
      = (render_and_post c self w entrylist).1.string_output ∧
    (render_and_post c self w entrylist).1.m_curl.postfieldsize
      = (render_and_post c self w entrylist).1.string_output.length := by
  refine ⟨rfl, ?_, rfl, rfl⟩
  simp only [render_and_post]
  split <;> rfl

/-- C7. End takes precedence over set. When the end event entry of
`trigger_info` is not empty, the event selected, and so the id looked up in
`trigger_attr_map`, is that of the end event; the outcome is the same for every
trigger info with that end event entry, whatever its set event entry; and when
the end id is not registered the snapshot is dropped (service and world
unchanged). The set event entry is selected when the end event entry is
empty. -/
theorem end_takes_precedence (c : Collaborators) (self : NetOutService) (w : World)
    (trigger_info : SnapshotRecord) (snapshot : SnapshotRecord) :
    ((c.get trigger_info self.end_event_attr).is_empty = false →
      select_event c self trigger_info = c.get trigger_info self.end_event_attr ∧
      (∀ other : SnapshotRecord,
        c.get other self.end_event_attr = c.get trigger_info self.end_event_attr →
        process_snapshot_cb c self w (some other) snapshot
          = process_snapshot_cb c self w (some trigger_info) snapshot) ∧
      (TriggerAttributeMap.find self.trigger_attr_map
          (c.to_id (c.get trigger_info self.end_event_attr).value) = none →
        process_snapshot_cb c self w (some trigger_info) snapshot = (self, w))) ∧
    ((c.get trigger_info self.end_event_attr).is_empty = true →
      select_event c self trigger_info = c.get trigger_info self.set_event_attr) := by
  constructor
  · intro hend
    have hsel : select_event c self trigger_info = c.get trigger_info self.end_event_attr := by
      simp [select_event, hend]
    refine ⟨hsel, ?_, ?_⟩
    · intro other hother
      have hsel2 : select_event c self other = c.get trigger_info self.end_event_attr := by
        simp [select_event, hother, hend]
      simp only [process_snapshot_cb, hsel, hsel2]
    · intro hfind
      simp [process_snapshot_cb, hsel, hend, lookup_trigger_attr, hfind, Attribute.same]
  · intro hend
    simp [select_event, hend]

/-- C1, amended. For every service, world, `trigger_info` and snapshot, with
`SnapshotRecord::get` giving the empty entry for `Attribute::invalid`: the
snapshot is accepted exactly when `trigger_info` is not null, the event entry
selected from it (the end event entry, or the set event entry when the end
event entry is empty) is not empty, the id of that entry is a key of
`trigger_attr_map`, and the snapshot has a non-empty entry for the attribute
stored under that key. An accepted snapshot is flattened, rendered and posted
(`render_and_post` on its entry list: one request more); for any other
snapshot the service and the world are unchanged. -/
theorem process_snapshot_cb_accepts (c : Collaborators) (self : NetOutService) (w : World)
    (trigger_info : Option SnapshotRecord) (snapshot : SnapshotRecord)
    (hget : ∀ a : Attribute, a.id = CALI_INV_ID → c.get snapshot a = Entry.empty) :
    ((∃ ti attr, trigger_info = some ti ∧
        (select_event c self ti).is_empty = false ∧
        TriggerAttributeMap.find self.trigger_attr_map
          (c.to_id (select_event c self ti).value) = some attr ∧
        (c.get snapshot attr).is_empty = false) →
      process_snapshot_cb c self w trigger_info snapshot
        = render_and_post c self w (build_entrylist snapshot) ∧
      (process_snapshot_cb c self w trigger_info snapshot).2.requests.length
        = w.requests.length + 1) ∧
    (¬ (∃ ti attr, trigger_info = some ti ∧
        (select_event c self ti).is_empty = false ∧
        TriggerAttributeMap.find self.trigger_attr_map
          (c.to_id (select_event c self ti).value) = some attr ∧
        (c.get snapshot attr).is_empty = false) →
      process_snapshot_cb c self w trigger_info snapshot = (self, w)) := by
  constructor
  · rintro ⟨ti, attr, hti, hev, hfind, hval⟩
    have hid : attr.id ≠ CALI_INV_ID := by
      intro h
      rw [hget attr h] at hval
      simp [Entry.is_empty] at hval
    have hres : process_snapshot_cb c self w trigger_info snapshot
        = render_and_post c self w (build_entrylist snapshot) := by
      subst hti
      simp [process_snapshot_cb, hev, lookup_trigger_attr, hfind, Attribute.same,
        Attribute.invalid, hid, hval]
    refine ⟨hres, ?_⟩
    rw [hres, (render_and_post_effect c self w _).2.1]
    simp
  · intro hno
    cases trigger_info with
    | none => rfl
    | some ti =>
      unfold process_snapshot_cb
      dsimp only
      split
      · rfl
      · rename_i hev
        split
        · rfl
        · rename_i hcond
          exfalso
          simp only [Bool.or_eq_true, not_or, Bool.not_eq_true] at hcond
          obtain ⟨hsame, hval⟩ := hcond
          cases hfind : TriggerAttributeMap.find self.trigger_attr_map
              (c.to_id (select_event c self ti).value) with
          | none =>
            simp [lookup_trigger_attr, hfind, Attribute.same] at hsame
          | some attr =>
            apply hno
            refine ⟨ti, attr, rfl, by simpa using hev, hfind, ?_⟩
            simpa [lookup_trigger_attr, hfind] using hval

/-- Witness for C2: after both attributes were created and two snapshots
processed, the map holds `region` and `phase` under their ids. -/
theorem registry_invariant_witness :
    (Sample.service Sample.config Stream.None).1.trigger_attr_map = [] ∧
    (∀ id attr,
      (id, attr) ∈ (run Sample.collaborators (Sample.service Sample.config Stream.None)
        [Call.create_attribute Sample.region,
         Call.process_snapshot (some Sample.end_region) Sample.snapshot_init,
         Call.create_attribute Sample.phase,
         Call.create_attribute Sample.region]).1.trigger_attr_map →
      attr.name ∈ (run Sample.collaborators (Sample.service Sample.config Stream.None)
        [Call.create_attribute Sample.region,
         Call.process_snapshot (some Sample.end_region) Sample.snapshot_init,
         Call.create_attribute Sample.phase,
         Call.create_attribute Sample.region]).1.trigger_attr_names ∧
      attr.skip_events = false ∧ id = attr.id) :=
  ⟨by decide,
   registry_invariant Sample.collaborators (Sample.service Sample.config Stream.None).1
     (Sample.service Sample.config Stream.None).2 _ (by decide)⟩

/-- Witness for C9: `region` is registered in the example service, and creating
it again changes nothing. -/
theorem create_attribute_cb_idempotent_witness :
    Sample.region.id ∈ Sample.registered.1.trigger_attr_map.map Prod.fst ∧
    create_attribute_cb Sample.registered.1 Sample.region = Sample.registered.1 :=
  ⟨by decide,
   (create_attribute_cb_idempotent Sample.registered.1 Sample.region).1 (by decide)⟩

/-- Witness for C4: the record `snapshot_phase` has one node and one immediate
pair; they are elements 0 and 1 of its entry list. -/
theorem build_entrylist_spec_witness :
    (0 : Nat) < Sample.snapshot_phase.size.n_nodes ∧
    (build_entrylist Sample.snapshot_phase)[0]?
      = some (Entry.node ⟨5, 30, Variant.v_string "main", none⟩) ∧
    (build_entrylist Sample.snapshot_phase)[1]?
      = some (Entry.immediate 11 (Variant.v_string "solve")) :=
  ⟨by decide,
   (build_entrylist_spec Sample.snapshot_phase).2.1 0 (by decide),
   (build_entrylist_spec Sample.snapshot_phase).2.2.1 0 (by decide)⟩

/-- Witness for C7: the trigger info carries the end event of the unregistered
id 77 and the set event of the registered `phase`, the snapshot holds a value
for `phase`, and the snapshot is dropped. -/
theorem end_takes_precedence_witness :
    (Sample.collaborators.get Sample.end_unknown_set_phase
      Sample.registered.1.end_event_attr).is_empty = false ∧
    Sample.collaborators.get Sample.end_unknown_set_phase Sample.registered.1.set_event_attr
      = Entry.immediate 1 (Variant.v_uint 11) ∧
    TriggerAttributeMap.find Sample.registered.1.trigger_attr_map 11 = some Sample.phase ∧
    (Sample.collaborators.get Sample.snapshot_phase Sample.phase).is_empty = false ∧
    process_snapshot_cb Sample.collaborators Sample.registered.1 Sample.registered.2
      (some Sample.end_unknown_set_phase) Sample.snapshot_phase = Sample.registered :=
  ⟨by decide, by decide, by decide, by decide,
   ((end_takes_precedence Sample.collaborators Sample.registered.1 Sample.registered.2
      Sample.end_unknown_set_phase Sample.snapshot_phase).1 (by decide)).2.2 (by decide)⟩

/-- Counterexample to C1 as stated: the trigger info carries a set event entry
whose id (10) is a key of `trigger_attr_map`, and the snapshot holds a value for
the attribute registered under that id, yet nothing is rendered or posted: the
service and the world are unchanged, because the end event entry (id 99, not
registered) is the one looked up. -/
theorem registered_set_entry_counterexample :
    (Sample.collaborators.get Sample.end_unknown_set_region
      Sample.registered.1.set_event_attr).is_empty = false ∧
    TriggerAttributeMap.find Sample.registered.1.trigger_attr_map
      (Sample.collaborators.to_id (Sample.collaborators.get Sample.end_unknown_set_region
        Sample.registered.1.set_event_attr).value) = some Sample.region ∧
    (Sample.collaborators.get Sample.snapshot_init Sample.region).is_empty = false ∧
    process_snapshot_cb Sample.collaborators Sample.registered.1 Sample.registered.2
      (some Sample.end_unknown_set_region) Sample.snapshot_init = Sample.registered := by
  decide

/-- Witness for C1: the end event of the registered `region` with a snapshot
that holds a value for `region` is accepted: one request is performed. -/
theorem process_snapshot_cb_accepts_witness :
    (∀ a : Attribute, a.id = CALI_INV_ID →
      Sample.collaborators.get Sample.snapshot_init a = Entry.empty) ∧
    (process_snapshot_cb Sample.collaborators Sample.registered.1 Sample.registered.2
      (some Sample.end_region) Sample.snapshot_init).2.requests.length
        = Sample.registered.2.requests.length + 1 :=
  ⟨fun a h => by simp [Sample.collaborators, Sample.get, h],
   ((process_snapshot_cb_accepts Sample.collaborators Sample.registered.1 Sample.registered.2
      (some Sample.end_region) Sample.snapshot_init
      (fun a h => by simp [Sample.collaborators, Sample.get, h])).1
      ⟨Sample.end_region, Sample.region, rfl, by decide, by decide, by decide⟩).2⟩

/-! ## The default format string inside the column budget -/

/-- A small non-negative value is its own conversion to `int`. -/
theorem to_int_of_small (i : Int) (h0 : 0 ≤ i) (h1 : i < 2 ^ 31) : to_int i = i := by
  unfold to_int INT_MOD
  norm_num at *
  have h2 : i % 4294967296 = i := Int.emod_eq_of_lt h0 (by omega)
  rw [h2]
  simp [h1]

/-- A small non-negative value is its own conversion to `size_t`. -/
theorem to_size_t_of_small (i : Int) (h0 : 0 ≤ i) (h1 : i < 2 ^ 31) :
    to_size_t i = i.toNat := by
  unfold to_size_t SIZE_T_MOD
  norm_num at *
  have h2 : i % 18446744073709551616 = i := Int.emod_eq_of_lt h0 (by omega)
  rw [h2]

/-- The loop that sums the sizes, while the sum stays below `2 ^ 31`. -/
theorem foldl_name_sizes (xs : List String) :
    ∀ acc : Int, 0 ≤ acc → acc + ((xs.map String.length).sum : Nat) < 2 ^ 31 →
      xs.foldl (fun name_sizes s =>
        to_int ((to_size_t name_sizes + s.length) % SIZE_T_MOD : Nat)) acc
        = acc + ((xs.map String.length).sum : Nat) := by
  induction xs with
  | nil => intro acc _ _; simp
  | cons x rest ih =>
    intro acc h0 h1
    simp only [List.map_cons, List.sum_cons, Nat.cast_add] at h1
    have hacc : acc < 2 ^ 31 := by omega
    have hstep : to_int ((to_size_t acc + x.length) % SIZE_T_MOD : Nat)
        = acc + (x.length : Int) := by
      rw [to_size_t_of_small acc h0 hacc]
      have hlt : acc.toNat + x.length < SIZE_T_MOD := by
        unfold SIZE_T_MOD
        omega
      rw [Nat.mod_eq_of_lt hlt]
      rw [to_int_of_small _ (by omega) (by omega)]
      omega
    simp only [List.foldl_cons, hstep, List.map_cons, List.sum_cons, Nat.cast_add]
    rw [ih (acc + x.length) (by omega) (by omega)]
    omega

/-- The width inside the budget: no wrap-around happens. -/
theorem column_width_in_budget (L k : Nat) (hk : 0 < k) (h : L + 2 * k ≤ 70) :
    column_width (L : Int) k = max 0 ((80 - 10 - (L : Int) - 2 * (k : Int)) / (k : Int)) := by
  unfold column_width
  have h1 : to_int (80 - 10 - (L : Int)) = 70 - (L : Int) := by
    rw [to_int_of_small _ (by omega) (by omega)]
    omega
  have h2 : to_size_t (70 - (L : Int)) = 70 - L := by
    rw [to_size_t_of_small _ (by omega) (by omega)]
    omega
  have h3 : (2 * k) % SIZE_T_MOD = 2 * k := Nat.mod_eq_of_lt (by unfold SIZE_T_MOD; omega)
  have h4 : (70 - L + SIZE_T_MOD - 2 * k) % SIZE_T_MOD = 70 - L - 2 * k := by
    unfold SIZE_T_MOD
    omega
  simp only [h1, h2, h3, h4]
  have h5 : (70 - L - 2 * k) / k ≤ 70 := le_trans (Nat.div_le_self _ _) (by omega)
  have h5a : (((70 - L - 2 * k) / k : Nat) : Int) < 2 ^ 31 := by
    have : (70 - L - 2 * k) / k < 2 ^ 31 := by omega
    exact_mod_cast this
  rw [to_int_of_small _ (Int.natCast_nonneg _) h5a]
  have h6 : ((70 - L - 2 * k : Nat) : Int) = 80 - 10 - (L : Int) - 2 * (k : Int) := by omega
  rw [Int.natCast_div, h6]

/-- Folding `++` from `a` is `a` followed by the join. -/
theorem foldl_append_eq_join (l : List String) :
    ∀ a : String, l.foldl (fun r s => r ++ s) a = a ++ String.join l := by
  induction l with
  | nil => intro a; simp [String.join]
  | cons x rest ih =>
    intro a
    have hj : String.join (x :: rest) = x ++ String.join rest := by
      show List.foldl (fun r s => r ++ s) "" (x :: rest) = _
      simp only [List.foldl_cons]
      rw [ih]
      simp
    rw [hj]
    simp only [List.foldl_cons]
    rw [ih, String.append_assoc]

/-- The join of a list with a first element. -/
theorem join_cons (x : String) (rest : List String) :
    String.join (x :: rest) = x ++ String.join rest := by
  show List.foldl (fun r s => r ++ s) "" (x :: rest) = _
  simp only [List.foldl_cons]
  rw [foldl_append_eq_join]
  simp

/-- The loop that writes the columns is the concatenation of the columns. -/
theorem foldl_columns (w : Int) (xs : List String) :
    ∀ init : String,
      xs.foldl (fun os s => os ++ s ++ "=%[" ++ toString w ++ "]" ++ s ++ "% ") init
        = init ++ String.join
            (xs.map (fun n => n ++ "=%[" ++ toString w ++ "]" ++ n ++ "% ")) := by
  induction xs with
  | nil => intro init; simp [String.join]
  | cons x rest ih =>
    intro init
    simp only [List.foldl_cons, List.map_cons]
    rw [ih, join_cons]
    simp only [String.append_assoc]

/-- Inside the budget of 80 columns the method agrees with the specification:
for every list of names whose total length `L` and count `k` satisfy
`L + 2k ≤ 70`, `create_default_formatstring` returns the template of section
4.3, the bare duration field for the empty list. -/
theorem default_formatstring_in_budget (names : List String)
    (h : (names.map String.length).sum + 2 * names.length ≤ 70) :
    create_default_formatstring names = spec_default_formatstring names := by
  cases names with
  | nil => rfl
  | cons x rest =>
    have hk : 0 < (x :: rest).length := by simp
    have hsum : sum_name_sizes (x :: rest)
        = (((x :: rest).map String.length).sum : Nat) := by
      unfold sum_name_sizes
      rw [foldl_name_sizes (x :: rest) 0 (le_refl 0) (by omega)]
      simp
    have hw := column_width_in_budget ((x :: rest).map String.length).sum (x :: rest).length hk h
    unfold create_default_formatstring spec_default_formatstring
    rw [if_neg (by omega)]
    simp only [hsum, hw, foldl_columns]
    simp

/-- Witness for `default_formatstring_in_budget`: the names `a` and `b` give two
columns of width 32 and the trailing duration field. -/
theorem default_formatstring_in_budget_witness :
    ((["a", "b"].map String.length).sum + 2 * ["a", "b"].length ≤ 70) ∧
    create_default_formatstring ["a", "b"]
      = "a=%[32]a% b=%[32]b% %[8r]time.inclusive.duration%" :=
  ⟨by decide, (default_formatstring_in_budget ["a", "b"] (by decide)).trans (by decide)⟩

/-! ## The stream selection -/

/-- A file name other than `none`, `stdout`, `stderr` is not in `strmap`. -/
theorem strmap_lookup_other (filename : String) (h1 : filename ≠ "none")
    (h2 : filename ≠ "stdout") (h3 : filename ≠ "stderr") :
    strmap.lookup filename = none := by
  have b1 : (filename == "none") = false := by simpa using h1
  have b2 : (filename == "stdout") = false := by simpa using h2
  have b3 : (filename == "stderr") = false := by simpa using h3
  simp [strmap, List.lookup, b1, b2, b3]

/-- The method `init_stream` selects `None`, `StdOut`, `StdErr` for the file
names `none`, `stdout`, `stderr`, and `File` for any other file name whose file
opens; none of these writes to the log. -/
theorem init_stream_selects (c : Collaborators) (self : NetOutService) (w : World) :
    (self.config.filename = "none" →
      init_stream c self w = ({ self with m_stream := Stream.None }, w)) ∧
    (self.config.filename = "stdout" →
      init_stream c self w = ({ self with m_stream := Stream.StdOut }, w)) ∧
    (self.config.filename = "stderr" →
      init_stream c self w = ({ self with m_stream := Stream.StdErr }, w)) ∧
    (self.config.filename ≠ "none" → self.config.filename ≠ "stdout" →
      self.config.filename ≠ "stderr" → c.ofstream_open self.config.filename = true →
      init_stream c self w = ({ self with m_ofstream := true, m_stream := Stream.File }, w)) := by
  refine ⟨?_, ?_, ?_, ?_⟩
  · intro h
    simp [init_stream, strmap, List.lookup, h]
  · intro h
    simp [init_stream, strmap, List.lookup, h]
  · intro h
    simp [init_stream, strmap, List.lookup, h]
  · intro h1 h2 h3 h4
    simp [init_stream, strmap_lookup_other _ h1 h2 h3, h4]

/-- Witness for `init_stream_selects`: the example service, configured with
`stdout`, selects `StdOut`. -/
theorem init_stream_selects_witness :
    Sample.registered.1.config.filename = "stdout" ∧
    (init_stream Sample.collaborators Sample.registered.1 Sample.registered.2).1.m_stream
      = Stream.StdOut :=
  ⟨by decide,
   by rw [(init_stream_selects Sample.collaborators Sample.registered.1
      Sample.registered.2).2.1 (by decide)]⟩

/-- For a file name other than `none`, `stdout`, `stderr` whose file does not
open, `init_stream` writes the diagnostic to the log and leaves `m_stream` as
it was. -/
theorem init_stream_open_failure (c : Collaborators) (self : NetOutService) (w : World)
    (h1 : self.config.filename ≠ "none") (h2 : self.config.filename ≠ "stdout")
    (h3 : self.config.filename ≠ "stderr")
    (h4 : c.ofstream_open self.config.filename = false) :
    (init_stream c self w).1.m_stream = self.m_stream ∧
    (init_stream c self w).2.log
      = w.log ++ ["Could not open text log file " ++ self.config.filename] := by
  simp [init_stream, strmap_lookup_other _ h1 h2 h3, h4]

/-- Witness for `init_stream_open_failure`: the file `trace.log` does not open,
the diagnostic is logged and `m_stream` stays `StdOut`. -/
theorem init_stream_open_failure_witness :
    Sample.collaborators.ofstream_open Sample.unopened.config.filename = false ∧
    (init_stream Sample.collaborators Sample.unopened World.init).1.m_stream
      = Stream.StdOut ∧
    (init_stream Sample.collaborators Sample.unopened World.init).2.log
      = ["Could not open text log file trace.log"] :=
  ⟨by decide,
   (init_stream_open_failure Sample.collaborators Sample.unopened World.init
      (by decide) (by decide) (by decide) (by decide)).1.trans (by decide),
   (init_stream_open_failure Sample.collaborators Sample.unopened World.init
      (by decide) (by decide) (by decide) (by decide)).2.trans (by decide)⟩

/-- The requests, the text on `stderr`, the log and the stream output of
`process_snapshot_cb` do not depend on `m_stream`. -/
theorem process_snapshot_cb_ignores_m_stream (c : Collaborators) (self : NetOutService)
    (w : World) (trigger_info : Option SnapshotRecord) (snapshot : SnapshotRecord)
    (m : Stream) :
    (process_snapshot_cb c { self with m_stream := m } w trigger_info snapshot).2
      = (process_snapshot_cb c self w trigger_info snapshot).2 := by
  cases trigger_info with
  | none => rfl
  | some ti =>
    have e1 : select_event c { self with m_stream := m } ti = select_event c self ti := rfl
    have e2 : ∀ ev, lookup_trigger_attr c { self with m_stream := m } ev
        = lookup_trigger_attr c self ev := fun _ => rfl
    have e3 : ∀ el, (render_and_post c { self with m_stream := m } w el).2
        = (render_and_post c self w el).2 := fun _ => rfl
    simp only [process_snapshot_cb, e1, e2]
    split
    · rfl
    · split
      · rfl
      · exact e3 _

/-! ## Behaviour on concrete inputs -/

set_option maxRecDepth 100000

/-- C3. The body posted for the second accepted snapshot. The line rendered for
`snapshot_loop` with its terminator is `10=loop 20=7\n`; the body of the second
request is the line of the first snapshot followed by that line, because
`string_output` is never cleared. -/
theorem second_post_repeats_first_line :
    Sample.collaborators.print Sample.after_init.1.formatter
      (build_entrylist Sample.snapshot_loop) ++ "\n" = "10=loop 20=7\n" ∧
    Sample.after_loop.2.requests.map CURL.body
      = ["10=init 20=120\n", "10=init 20=120\n10=loop 20=7\n"] := by
  decide

/-- C5. The default format string for three names of total length 69: the
width is computed in `size_t`, where `70 - 69 - 6` wraps around, and comes out
as 1431655763, where the formula of the specification gives 0. -/
theorem default_formatstring_width_wraps :
    create_default_formatstring Sample.long_names
      = "mpi.function.collective=%[1431655763]mpi.function.collective% "
        ++ "loop.iteration.outermost=%[1431655763]loop.iteration.outermost% "
        ++ "annotation.region.name=%[1431655763]annotation.region.name% "
        ++ "%[8r]time.inclusive.duration%" ∧
    spec_default_formatstring Sample.long_names
      = "mpi.function.collective=%[0]mpi.function.collective% "
        ++ "loop.iteration.outermost=%[0]loop.iteration.outermost% "
        ++ "annotation.region.name=%[0]annotation.region.name% "
        ++ "%[8r]time.inclusive.duration%" := by
  decide

/-- C6. With `filename = none` the stream selected is `Stream::None`, and an
accepted snapshot is posted all the same: one request with the rendered line as
its body, and a status line on `stderr`. -/
theorem discard_sink_still_posts :
    Sample.registered_none.1.config.filename = "none" ∧
    Sample.registered_none.1.m_stream = Stream.None ∧
    (process_snapshot_cb Sample.collaborators Sample.registered_none.1
      Sample.registered_none.2 (some Sample.end_region) Sample.snapshot_init).2.requests.map
        CURL.body = ["10=init 20=120\n"] ∧
    (process_snapshot_cb Sample.collaborators Sample.registered_none.1
      Sample.registered_none.2 (some Sample.end_region) Sample.snapshot_init).2.stderr
        = "curl_easy_perform() success\n" := by
  decide

/-- C8. Construction with a file name that cannot be opened, `m_stream` holding
`Stream::StdOut` before `init_stream`: the diagnostic is logged and `m_stream`
is still `Stream::StdOut`, not `Stream::None`. -/
theorem unopened_file_keeps_m_stream :
    (NetOutService.construct Sample.collaborators
      ⟨"region", "", "/not/writable/path", "http://collector"⟩
      Stream.StdOut ⟨"", "", "", 0⟩ World.init).1.m_stream = Stream.StdOut ∧
    (NetOutService.construct Sample.collaborators
      ⟨"region", "", "/not/writable/path", "http://collector"⟩
      Stream.StdOut ⟨"", "", "", 0⟩ World.init).2.log
      = ["Could not open text log file /not/writable/path", "Registered text log service"] := by
  decide

end NetOut

namespace PyBinding

open NetOut

/-- C10. Every `PythonAttribute` that is constructed holds an id other than
`CALI_INV_ID`: each of the three constructors and `find_attribute` gives an
error, not an object, when the id obtained is `CALI_INV_ID`, and an object
holding that id otherwise; and the metadata constructor gives its error with
the runtime state untouched, whatever the C interface does, when `meta_attrs`
and `meta_vals` differ in length. -/
theorem python_attribute_id_valid {σ : Type} (api : CInterface σ) (name : String)
    (type : cali_attr_type) (properties : Int) (meta_attrs : List PythonAttribute)
    (meta_vals : List PythonVariant) (id : cali_id_t) (st : σ) :
    (∀ a st', PythonAttribute.ctor api name type properties st = (Except.ok a, st') →
      a.m_attr_id ≠ CALI_INV_ID) ∧
    ((api.cali_create_attribute name type properties st).1 = CALI_INV_ID →
      (PythonAttribute.ctor api name type properties st).1
        = Except.error "Failed to create attribute") ∧
    (∀ a st', PythonAttribute.ctor_with_metadata api name type properties meta_attrs
        meta_vals st = (Except.ok a, st') → a.m_attr_id ≠ CALI_INV_ID) ∧
    (meta_attrs.length = meta_vals.length →
      (api.cali_create_attribute_with_metadata name type properties meta_attrs.length
        (meta_attrs.map (fun a => a.m_attr_id)) (meta_vals.map (fun v => v.c_variant))
        st).1 = CALI_INV_ID →
      (PythonAttribute.ctor_with_metadata api name type properties meta_attrs meta_vals st).1
        = Except.error "Could not create attribute with metadata") ∧
    (meta_attrs.length ≠ meta_vals.length →
      PythonAttribute.ctor_with_metadata api name type properties meta_attrs meta_vals st
        = (Except.error "'meta_attrs' and 'meta_vals' must be same length", st)) ∧
    (∀ a, PythonAttribute.ctor_from_id id = Except.ok a → a.m_attr_id ≠ CALI_INV_ID) ∧
    PythonAttribute.ctor_from_id CALI_INV_ID = Except.error "Invalid attribute" ∧
    (∀ a st', PythonAttribute.find_attribute api name st = (Except.ok a, st') →
      a.m_attr_id ≠ CALI_INV_ID) ∧
    ((api.cali_find_attribute name st).1 = CALI_INV_ID →
      (PythonAttribute.find_attribute api name st).1 = Except.error "Invalid attribute") := by
  refine ⟨?_, ?_, ?_, ?_, ?_, ?_, ?_, ?_, ?_⟩
  · intro a st' h
    unfold PythonAttribute.ctor at h
    dsimp only at h
    split at h
    · simp at h
    · rename_i hne
      simp only [Prod.mk.injEq, Except.ok.injEq] at h
      rw [← h.1]
      exact hne
  · intro h
    simp [PythonAttribute.ctor, h]
  · intro a st' h
    unfold PythonAttribute.ctor_with_metadata at h
    dsimp only at h
    split at h
    · simp at h
    · split at h
      · simp at h
      · rename_i hne
        simp only [Prod.mk.injEq, Except.ok.injEq] at h
        rw [← h.1]
        exact hne
  · intro hlen h
    rw [hlen] at h
    unfold PythonAttribute.ctor_with_metadata
    simp only [hlen, ne_eq, not_true_eq_false, if_false, List.length_map]
    rw [if_pos h]
  · intro hlen
    simp [PythonAttribute.ctor_with_metadata, hlen]
  · intro a h
    unfold PythonAttribute.ctor_from_id at h
    split at h
    · simp at h
    · rename_i hne
      simp only [Except.ok.injEq] at h
      rw [← h]
      exact hne
  · simp [PythonAttribute.ctor_from_id]
  · intro a st' h
    unfold PythonAttribute.find_attribute PythonAttribute.ctor_from_id at h
    dsimp only at h
    split at h
    · simp at h
    · rename_i heq
      split at heq
      · simp at heq
      · rename_i hne
        simp only [Except.ok.injEq] at heq
        simp only [Prod.mk.injEq, Except.ok.injEq] at h
        rw [← h.1, ← heq]
        exact hne
  · intro h
    simp [PythonAttribute.find_attribute, PythonAttribute.ctor_from_id, h]

/-- Witness for C10: with lists of different lengths the metadata constructor
gives its error and no attribute is created (the count stays 0); creation under
the empty name gives an error; `find_attribute` of an unknown name gives an
error. -/
theorem python_attribute_id_valid_witness :
    PythonAttribute.ctor_with_metadata Sample.c_interface "meta" 3 0 [⟨10⟩] [] 0
      = (Except.error "'meta_attrs' and 'meta_vals' must be same length", 0) ∧
    (PythonAttribute.ctor Sample.c_interface "" 3 0 0).1
      = Except.error "Failed to create attribute" ∧
    (PythonAttribute.find_attribute Sample.c_interface "unknown" 0).1
      = Except.error "Invalid attribute" :=
  ⟨(python_attribute_id_valid Sample.c_interface "meta" 3 0 [⟨10⟩] [] 0 0).2.2.2.2.1 (by decide),
   (python_attribute_id_valid Sample.c_interface "" 3 0 [] [] 0 0).2.1 (by decide),
   (python_attribute_id_valid Sample.c_interface "unknown" 3 0 [] [] 0 0).2.2.2.2.2.2.2.2
     (by decide)⟩

end PyBinding
